import Mathlib

/-!
# Verification of the authentication subsystem

Shallow embedding of the repository's authentication stacks:

* the examples stack (`backend/examples/auth/jwt_service_example.py`,
  `user_repository_example.py`, `complete_auth_example.py`), and
* the `src/auth` stack (`src/auth/infrastructure/services.py`,
  `src/auth/infrastructure/jwt_service.py`, `src/auth/application/use_cases.py`,
  `src/auth/domain/entities.py`, `src/auth/domain/value_objects.py`).

Modelling conventions:

* bcrypt is modelled as an idealized collision-free salted hash: the encoded
  hash string is represented by the structured value it embeds (version/rounds,
  salt, digest), and the digest of a password under a salt is represented
  injectively, so `checkpw` succeeds exactly on the hashed password.
* A JWT string is represented by the signed object it decodes to: `jwt.encode`
  is deterministic, so equality of encoded strings corresponds to equality of
  (payload, signing key); a token that is not a well-formed encoding is
  represented by the `malformed` constructor.
* `datetime.utcnow()` is modelled by explicit clock-read parameters, one per
  call site in the source, constrained (where needed) to be monotone.
* `bcrypt.gensalt()` is modelled by an explicit salt parameter; distinct calls
  draw distinct salts (the code's randomness assumption).
* SQLite tables are modelled as in-memory lists of rows in insertion order
  (SQLite returns rows in rowid order for these unordered queries);
  per-call connections always succeed, so the `StoreError`-style wrappers for
  connection loss are not reachable in the model.
-/

namespace AuthVerif

/-! ## Python string primitives

`str.strip()` and `str.lower()` are modelled over the character list (ASCII
whitespace and ASCII case, which is all the authentication flows use). -/

/-- The whitespace characters stripped by Python `str.strip()` (ASCII). -/
def isPySpace (c : Char) : Bool :=
  c == ' ' || c == '\t' || c == '\n' || c == '\r' || c == '\x0b' || c == '\x0c'

/-- Python `str.strip()`: drop leading and trailing whitespace. -/
def pyStrip (s : String) : String :=
  String.mk (((s.data.dropWhile isPySpace).reverse.dropWhile isPySpace).reverse)

/-- Python `str.lower()` (ASCII range). -/
def pyLower (s : String) : String :=
  String.mk (s.data.map Char.toLower)

/-! ## bcrypt model (used by `JWTService.hash_password` / `verify_password`
in `jwt_service_example.py` and `BCryptPasswordService` in
`src/auth/infrastructure/services.py`) -/

/-- The parsed form of a bcrypt hash string: the encoded string embeds the
algorithm version / cost (`rounds`), the random `salt`, and the `digest`.
The digest of password `p` under salt `s` is modelled injectively as the
pair `(p, s)` (bcrypt digests are assumed collision-free). -/
structure BcryptHash where
  rounds : Nat
  salt : Nat
  digest : String × Nat
deriving DecidableEq, Repr

/-- Model of `bcrypt.hashpw(password, bcrypt.gensalt(rounds))`: the salt drawn
by `gensalt` is passed explicitly. -/
def bcryptHashpw (password : String) (salt : Nat) (rounds : Nat) : BcryptHash :=
  { rounds := rounds, salt := salt, digest := (password, salt) }

/-- Model of `bcrypt.checkpw(password, stored)`: re-hash `password` with the
salt embedded in `stored` and compare digests. -/
def bcryptCheckpw (password : String) (stored : BcryptHash) : Bool :=
  stored.digest == (password, stored.salt)

/-! ## JWT model (PyJWT `jwt.encode` / `jwt.decode`) -/

/-- The claims payload built by `JWTService.create_token`
(`jwt_service_example.py` lines 103-110, identical in
`PyJWTService.create_token`, `services.py` lines 45-52). `typ` models the
"type" key. Timestamps are integer POSIX seconds. -/
structure JwtClaims where
  user_id : Nat
  email : String
  role : String
  exp : Int
  iat : Int
  typ : String
deriving DecidableEq, Repr

/-- An encoded JWT string, represented by what it decodes to: a payload signed
with a key (`jwt.encode payload key`), or a string that is not a well-formed
token. -/
inductive TokenValue where
  | signed (claims : JwtClaims) (key : String)
  | malformed (s : String)
deriving DecidableEq, Repr

/-- Failure modes of `jwt.decode`: `expiredSignature` models
`jwt.ExpiredSignatureError`, `invalidToken` models `jwt.InvalidTokenError`
(signature mismatch or undecodable structure). -/
inductive JwtDecodeError where
  | expiredSignature
  | invalidToken
deriving DecidableEq, Repr

/-- Model of `jwt.decode(token, key, algorithms=[alg])` at time `now`:
PyJWT first decodes the structure and verifies the signature (raising
`InvalidTokenError` on failure), then validates the `exp` claim
(`ExpiredSignatureError` when `exp <= now`). -/
def jwtDecode (t : TokenValue) (key : String) (now : Int) :
    Except JwtDecodeError JwtClaims :=
  match t with
  | .malformed _ => .error .invalidToken
  | .signed c k =>
    if k = key then
      if c.exp ≤ now then .error .expiredSignature else .ok c
    else .error .invalidToken

/-! ## `JWTService` (`jwt_service_example.py`) -/

/-- State of `JWTService.__init__` (`jwt_service_example.py` lines 65-77):
signing secret, algorithm, default expiry in hours, and the in-process
revocation set (a Python `set` of raw token strings, here a list with
membership up to duplication). -/
structure JWTServiceState where
  secret_key : String
  algorithm : String
  access_token_expire_hours : Int
  revoked_tokens : List TokenValue
deriving DecidableEq, Repr

/-- `JWTService.create_token` (`jwt_service_example.py` lines 79-118).
The two `datetime.utcnow()` calls in the source (line 98 or 100 for the
expiry, line 108 for `iat`) are modelled by the two clock reads `t1` and
`t2`, in call order. Python truthiness on line 97 (`if expires_delta:`)
means a zero timedelta falls back to the default expiry. -/
def JWTService.create_token (st : JWTServiceState) (user_id : Nat)
    (email role : String) (expires_delta : Option Int) (t1 t2 : Int) :
    TokenValue :=
  let expire : Int :=
    match expires_delta with
    | some d => if d = 0 then t1 + st.access_token_expire_hours * 3600 else t1 + d
    | none => t1 + st.access_token_expire_hours * 3600
  TokenValue.signed
    { user_id := user_id, email := email, role := role,
      exp := expire, iat := t2, typ := "access" }
    st.secret_key

/-- The error outcomes of `JWTService.verify_token`: `tokenExpired` is the
distinct `TokenExpiredError` class, `invalidToken` the `InvalidTokenError`
class (its message interpolates the PyJWT exception text and is abstracted
away), `serviceError` the `JWTServiceError` raised by the final broad
`except Exception` clause, which intercepts the in-try raises for revoked
tokens and wrong token types. -/
inductive JwtVerifyError where
  | tokenExpired
  | invalidToken
  | serviceError (msg : String)
deriving DecidableEq, Repr

/-- `JWTService.verify_token` (`jwt_service_example.py` lines 120-153), also
modelling `PyJWTService.verify_token` (`services.py` lines 62-83), which has
the same control flow with all failures raised as bare `Exception` carrying
the corresponding distinct messages. Steps in source order: (1) revocation
membership check, (2) `jwt.decode` (signature + expiry), (3) "type" claim
check. The `InvalidTokenError("Token has been revoked")` and
`InvalidTokenError("Invalid token type")` raised inside the `try` block are
caught by the trailing `except Exception` clause and re-raised wrapped as
`JWTServiceError`. -/
def JWTService.verify_token (st : JWTServiceState) (t : TokenValue)
    (now : Int) : Except JwtVerifyError JwtClaims :=
  if t ∈ st.revoked_tokens then
    .error (.serviceError "Token verification failed: Token has been revoked")
  else
    match jwtDecode t st.secret_key now with
    | .error .expiredSignature => .error .tokenExpired
    | .error .invalidToken => .error .invalidToken
    | .ok payload =>
      if payload.typ = "access" then .ok payload
      else .error (.serviceError "Token verification failed: Invalid token type")

/-- `JWTService.revoke_token` (`jwt_service_example.py` lines 220-234):
adds the raw token value to the revocation set and returns `True`. -/
def JWTService.revoke_token (st : JWTServiceState) (t : TokenValue) :
    Bool × JWTServiceState :=
  (true, { st with revoked_tokens := t :: st.revoked_tokens })

/-- `JWTService.is_token_revoked` (`jwt_service_example.py` lines 236-246). -/
def JWTService.is_token_revoked (st : JWTServiceState) (t : TokenValue) : Bool :=
  st.revoked_tokens.contains t

/-- `JWTService.hash_password` (`jwt_service_example.py` lines 155-175):
`bcrypt.gensalt(rounds=12)` then `bcrypt.hashpw`; the fresh salt is passed
explicitly. -/
def JWTService.hash_password (password : String) (salt : Nat) : BcryptHash :=
  bcryptHashpw password salt 12

/-- `JWTService.verify_password` (`jwt_service_example.py` lines 177-196). -/
def JWTService.verify_password (password : String) (hashed : BcryptHash) : Bool :=
  bcryptCheckpw password hashed

/-! ## User repository (`user_repository_example.py`) -/

/-- A value supplied in an update map: SQLite columns here hold either a plain
string or (for `password_hash`) an encoded bcrypt hash. -/
inductive FieldVal where
  | str (s : String)
  | hash (h : BcryptHash)
deriving DecidableEq, Repr

/-- A row of the `users` table (`user_repository_example.py` lines 112-121),
which also carries the `User` dataclass fields (lines 21-64). -/
structure UserRow where
  id : Nat
  email : String
  password_hash : BcryptHash
  first_name : String
  last_name : String
  created_at : Int
deriving DecidableEq, Repr

/-- The `users` table: rows in insertion (rowid) order, plus the next
AUTOINCREMENT id. -/
structure RepoState where
  rows : List UserRow
  next_id : Nat
deriving DecidableEq, Repr

/-- Repository failures: `userAlreadyExists` models `UserAlreadyExistsError`,
`repositoryFailure` models `UserRepositoryError` (which the broad
`except Exception` clauses wrap around in-flight `ValueError`s). -/
inductive RepoError where
  | userAlreadyExists (msg : String)
  | repositoryFailure (msg : String)
deriving DecidableEq, Repr

/-- `UserRepository.create_user` (`user_repository_example.py` lines 158-208):
existence pre-check on the exact email, then INSERT (committed), then the
returned `User` is constructed, whose `__post_init__` validation runs only
after the row is already inserted; a validation failure is wrapped into
`UserRepositoryError` by the final `except` clause. The stored `created_at`
uses the first `datetime.now()` call (line 189), the returned entity the
second (line 202): clock reads `t1` and `t2`. The `password_hash` non-empty
check always passes: bcrypt hash strings are never empty. -/
def UserRepository.create_user (st : RepoState) (email : String)
    (password_hash : BcryptHash) (first_name last_name : String)
    (t1 t2 : Int) : Except RepoError UserRow × RepoState :=
  if st.rows.any (fun r => r.email == email) then
    (.error (.userAlreadyExists ("User with email " ++ email ++ " already exists")),
     st)
  else
    let row : UserRow :=
      { id := st.next_id, email := email, password_hash := password_hash,
        first_name := first_name, last_name := last_name, created_at := t1 }
    let st1 : RepoState := { rows := st.rows ++ [row], next_id := st.next_id + 1 }
    if (pyStrip email).isEmpty || (pyStrip first_name).isEmpty || (pyStrip last_name).isEmpty then
      (.error (.repositoryFailure "Failed to create user: validation"), st1)
    else
      (.ok { row with created_at := t2 }, st1)

/-- `UserRepository.get_user_by_email` (`user_repository_example.py`
lines 210-237): exact (case-sensitive) match on the stored email. -/
def UserRepository.get_user_by_email (st : RepoState) (email : String) :
    Option UserRow :=
  st.rows.find? (fun r => r.email == email)

/-- `UserRepository.get_user_by_id` (`user_repository_example.py`
lines 239-266). -/
def UserRepository.get_user_by_id (st : RepoState) (user_id : Nat) :
    Option UserRow :=
  st.rows.find? (fun r => r.id == user_id)

/-- Applying one `field = ?` assignment of the UPDATE statement. The catch-all
arm covers a value whose type does not fit the column; no caller in this
codebase supplies one. -/
def UserRow.setField (r : UserRow) (field : String) (v : FieldVal) : UserRow :=
  match field, v with
  | "email", .str s => { r with email := s }
  | "first_name", .str s => { r with first_name := s }
  | "last_name", .str s => { r with last_name := s }
  | "password_hash", .hash h => { r with password_hash := h }
  | _, _ => r

/-- The repository-level allow-list
(`user_repository_example.py` line 293). -/
def repoAllowedField (k : String) : Bool :=
  k == "email" || k == "password_hash" || k == "first_name" || k == "last_name"

/-- `UserRepository.update_user` (`user_repository_example.py` lines 268-320):
existence check on the id (absent row is `None`, not an error), then the
update map is filtered to the allow-list dropping `None` values; an empty
filtered map raises `ValueError("No valid fields to update")`, wrapped into
`UserRepositoryError` by the final `except` clause before any UPDATE runs;
otherwise the row is updated and re-fetched. -/
def UserRepository.update_user (st : RepoState) (user_id : Nat)
    (updates : List (String × Option FieldVal)) :
    Except RepoError (Option UserRow) × RepoState :=
  match st.rows.find? (fun r => r.id == user_id) with
  | none => (.ok none, st)
  | some _ =>
    let fields := updates.filter (fun kv => repoAllowedField kv.1 && kv.2.isSome)
    if fields.isEmpty then
      (.error (.repositoryFailure "Failed to update user: No valid fields to update"),
       st)
    else
      let applyAll : UserRow → UserRow := fun r =>
        fields.foldl (fun acc kv =>
          match kv.2 with
          | some v => UserRow.setField acc kv.1 v
          | none => acc) r
      let rows1 := st.rows.map (fun r => if r.id == user_id then applyAll r else r)
      let st1 : RepoState := { st with rows := rows1 }
      (.ok (UserRepository.get_user_by_id st1 user_id), st1)

/-! ## `AuthenticationService` (`complete_auth_example.py`) -/

/-- `f"{self.first_name} {self.last_name}"` (`user_repository_example.py`
lines 50-53). -/
def UserRow.full_name (u : UserRow) : String :=
  u.first_name ++ " " ++ u.last_name

/-- The user summary dictionary returned by the service operations. -/
structure AuthUserInfo where
  id : Nat
  email : String
  first_name : String
  last_name : String
  full_name : String
deriving DecidableEq, Repr

/-- Build the user summary dictionary from a row. -/
def UserRow.info (u : UserRow) : AuthUserInfo :=
  { id := u.id, email := u.email, first_name := u.first_name,
    last_name := u.last_name, full_name := u.full_name }

/-- The uniform outcome shape `{"success": ..., "message": ..., ...}` returned
by every `AuthenticationService` operation. -/
structure AuthResult where
  success : Bool
  message : String
  token : Option TokenValue := none
  user : Option AuthUserInfo := none
  token_payload : Option JwtClaims := none
deriving DecidableEq, Repr

/-- `AuthenticationService.__init__` (`complete_auth_example.py` lines 30-39):
the composed JWT service and user repository. -/
structure AuthState where
  jwt : JWTServiceState
  repo : RepoState
deriving DecidableEq, Repr

/-- `AuthenticationService.register_user` (`complete_auth_example.py`
lines 41-109): presence validation and minimum password length, then hash,
then `create_user` on the trimmed, lowercased email and trimmed names.
`ValueError`s from validation are returned as their own message;
`UserAlreadyExistsError` maps to the fixed "already exists" message; other
exceptions map to a generic failure. `salt` is the fresh salt drawn by
`hash_password`; `t1`, `t2` are the repository's two clock reads. -/
def AuthenticationService.register_user (st : AuthState)
    (email password first_name last_name : String) (salt : Nat) (t1 t2 : Int) :
    AuthResult × AuthState :=
  if (pyStrip email).isEmpty then
    ({ success := false, message := "Email is required" }, st)
  else if password.length < 8 then
    ({ success := false, message := "Password must be at least 8 characters long" }, st)
  else if (pyStrip first_name).isEmpty then
    ({ success := false, message := "First name is required" }, st)
  else if (pyStrip last_name).isEmpty then
    ({ success := false, message := "Last name is required" }, st)
  else
    let password_hash := JWTService.hash_password password salt
    match UserRepository.create_user st.repo (pyLower (pyStrip email)) password_hash
        (pyStrip first_name) (pyStrip last_name) t1 t2 with
    | (.ok u, repo1) =>
      ({ success := true, message := "User registered successfully",
         user := some u.info }, { st with repo := repo1 })
    | (.error (.userAlreadyExists _), repo1) =>
      ({ success := false, message := "User with this email already exists" },
       { st with repo := repo1 })
    | (.error (.repositoryFailure m), repo1) =>
      ({ success := false, message := "Registration failed: " ++ m },
       { st with repo := repo1 })

/-- `AuthenticationService.login_user` (`complete_auth_example.py`
lines 111-178): presence validation, lookup by trimmed lowercased email
(absent and wrong-password both return the same "Invalid email or password"
message), then token issuance with the fixed "customer" role. `t1`, `t2` are
the clock reads of `create_token`. -/
def AuthenticationService.login_user (st : AuthState) (email password : String)
    (t1 t2 : Int) : AuthResult × AuthState :=
  if (pyStrip email).isEmpty then
    ({ success := false, message := "Email is required" }, st)
  else if password.isEmpty then
    ({ success := false, message := "Password is required" }, st)
  else
    match UserRepository.get_user_by_email st.repo (pyLower (pyStrip email)) with
    | none => ({ success := false, message := "Invalid email or password" }, st)
    | some user =>
      if JWTService.verify_password password user.password_hash then
        let token := JWTService.create_token st.jwt user.id user.email "customer"
          none t1 t2
        ({ success := true, message := "Login successful", token := some token,
           user := some user.info }, st)
      else
        ({ success := false, message := "Invalid email or password" }, st)

/-- `AuthenticationService.verify_token` (`complete_auth_example.py`
lines 180-227): delegate to the JWT service, then re-fetch the user by the
payload's subject id; an absent user fails even though the token was valid.
The "Invalid token: ..." message interpolates the exception text; for the
`InvalidTokenError` case the interpolated PyJWT detail is abstracted away.
The `JWTServiceError` cases are caught by the broad `except Exception`
clause, whose message prefixes the already-prefixed service message. -/
def AuthenticationService.verify_token (st : AuthState) (token : TokenValue)
    (now : Int) : AuthResult × AuthState :=
  match JWTService.verify_token st.jwt token now with
  | .ok payload =>
    match UserRepository.get_user_by_id st.repo payload.user_id with
    | none => ({ success := false, message := "User not found" }, st)
    | some user =>
      ({ success := true, message := "Token is valid", user := some user.info,
         token_payload := some payload }, st)
  | .error .tokenExpired =>
    ({ success := false, message := "Invalid token: Token has expired" }, st)
  | .error .invalidToken =>
    ({ success := false, message := "Invalid token" }, st)
  | .error (.serviceError m) =>
    ({ success := false, message := "Token verification failed: " ++ m }, st)

/-- The service-level allow-list (`complete_auth_example.py` line 278). -/
def authAllowedField (k : String) : Bool :=
  k == "first_name" || k == "last_name"

/-- `AuthenticationService.update_user_profile` (`complete_auth_example.py`
lines 265-311): filter the update map to {first_name, last_name} dropping
`None` values; if nothing remains, fail before touching the repository;
otherwise delegate to `update_user`. -/
def AuthenticationService.update_user_profile (st : AuthState) (user_id : Nat)
    (updates : List (String × Option FieldVal)) : AuthResult × AuthState :=
  let filtered := updates.filter (fun kv => authAllowedField kv.1 && kv.2.isSome)
  if filtered.isEmpty then
    ({ success := false, message := "No valid fields to update" }, st)
  else
    match UserRepository.update_user st.repo user_id filtered with
    | (.ok none, repo1) =>
      ({ success := false, message := "User not found" }, { st with repo := repo1 })
    | (.ok (some u), repo1) =>
      ({ success := true, message := "Profile updated successfully",
         user := some u.info }, { st with repo := repo1 })
    | (.error (.repositoryFailure m), repo1) =>
      ({ success := false, message := "Failed to update profile: " ++ m },
       { st with repo := repo1 })
    | (.error (.userAlreadyExists m), repo1) =>
      ({ success := false, message := "Failed to update profile: " ++ m },
       { st with repo := repo1 })

/-! ## Shared list helpers -/

/-- A row scan by email misses every row when no stored email matches. -/
theorem any_email_eq_false (l : List UserRow) (e : String)
    (h : ∀ r ∈ l, r.email ≠ e) :
    (l.any fun r => r.email == e) = false := by
  rw [List.any_eq_false]
  intro r hr
  simp [h r hr]

/-- `find?` on a list extended with one row returns that row when no earlier
row satisfies the predicate. -/
theorem find?_append_last {α : Type} (l : List α) (p : α → Bool) (a : α)
    (h : ∀ x ∈ l, p x = false) (ha : p a = true) :
    (l ++ [a]).find? p = some a := by
  induction l with
  | nil => simp [List.find?, ha]
  | cons x xs ih =>
    rw [List.cons_append, List.find?_cons_of_neg]
    · exact ih fun y hy => h y (List.mem_cons_of_mem x hy)
    · simp [h x (List.mem_cons_self x xs)]

/-! ## Claims C1, C2, C3 -/

/-- Claim C1: once a token `t` has been revoked, every subsequent
`verify_token` call on `t` fails, whatever the token's contents (in particular
even when its signature is valid and its expiry is in the future), and the
outcome is the revocation veto itself: the membership check runs before the
signature and expiry checks, so the result does not depend on them. -/
theorem revoked_token_never_verifies (st : JWTServiceState) (t : TokenValue)
    (now : Int) :
    JWTService.verify_token (JWTService.revoke_token st t).2 t now =
      .error (.serviceError "Token verification failed: Token has been revoked") := by
  simp [JWTService.verify_token, JWTService.revoke_token]

/-- Claim C2, amended theorem, for the two cited implementations that can
issue a token with a caller-supplied ttl (`JWTService` in
`jwt_service_example.py`; `PyJWTService.verify_token` in `services.py`
shares the identical control flow with distinct messages on a single
exception class): a token issued with a negative ttl (`expires_delta < 0`)
fails verification with the expiry-specific `TokenExpiredError` outcome; a
signature mismatch (a token signed with a different key) and a malformed
token each fail with exactly the `InvalidTokenError` outcome; and the two
outcomes are distinct, so the caller can tell them apart. The claim's third
cited implementation (`src/auth/infrastructure/jwt_service.py`) collapses
the two failures instead — see the counterexample. -/
theorem negative_ttl_expiry_error_distinct (st : JWTServiceState)
    (user_id : Nat) (email role : String) (d now : Int) (other : String)
    (hd : d < 0) (hrev : st.revoked_tokens = []) (hkey : other ≠ st.secret_key) :
    JWTService.verify_token st
        (JWTService.create_token st user_id email role (some d) now now) now =
      .error .tokenExpired ∧
    (∀ c : JwtClaims,
      JWTService.verify_token st (TokenValue.signed c other) now =
        .error .invalidToken) ∧
    (∀ s : String,
      JWTService.verify_token st (TokenValue.malformed s) now =
        .error .invalidToken) ∧
    (JwtVerifyError.tokenExpired ≠ JwtVerifyError.invalidToken) := by
  refine ⟨?_, ?_, ?_, by simp⟩
  · have hd0 : d ≠ 0 := by omega
    have hexp : now + d ≤ now := by omega
    simp [JWTService.verify_token, JWTService.create_token, jwtDecode,
      hrev, hd0, hexp]
  · intro c
    simp [JWTService.verify_token, hrev, jwtDecode, hkey]
  · intro s
    simp [JWTService.verify_token, hrev, jwtDecode]

/-- Claim C2, witness: a concrete token with ttl = -1 second yields the
expiry outcome, while an unexpired access token signed with a different key
yields the invalid-token outcome. -/
theorem negative_ttl_expiry_error_distinct_witness :
    JWTService.verify_token
        { secret_key := "k", algorithm := "HS256",
          access_token_expire_hours := 1, revoked_tokens := [] }
        (JWTService.create_token
          { secret_key := "k", algorithm := "HS256",
            access_token_expire_hours := 1, revoked_tokens := [] }
          1 "user@example.com" "customer" (some (-1)) 100 100) 100 =
      .error .tokenExpired ∧
    JWTService.verify_token
        { secret_key := "k", algorithm := "HS256",
          access_token_expire_hours := 1, revoked_tokens := [] }
        (TokenValue.signed
          { user_id := 2, email := "other@example.com", role := "customer",
            exp := 4000, iat := 100, typ := "access" } "x") 100 =
      .error .invalidToken := by
  have h := negative_ttl_expiry_error_distinct
    { secret_key := "k", algorithm := "HS256",
      access_token_expire_hours := 1, revoked_tokens := [] }
    1 "user@example.com" "customer" (-1) 100 "x"
    (by decide) rfl (by decide)
  exact ⟨h.1, h.2.1
    { user_id := 2, email := "other@example.com", role := "customer",
      exp := 4000, iat := 100, typ := "access" }⟩

/-- Claim C3: hashing the same password with two distinct fresh salts (the
randomness assumption on `bcrypt.gensalt`) yields two different hash values,
and password verification succeeds against both. -/
theorem hash_password_salting (p : String) (s1 s2 : Nat) (h : s1 ≠ s2) :
    JWTService.hash_password p s1 ≠ JWTService.hash_password p s2 ∧
    JWTService.verify_password p (JWTService.hash_password p s1) = true ∧
    JWTService.verify_password p (JWTService.hash_password p s2) = true := by
  refine ⟨?_, ?_, ?_⟩
  · intro hc
    exact h (congrArg BcryptHash.salt hc)
  · simp [JWTService.verify_password, JWTService.hash_password, bcryptCheckpw,
      bcryptHashpw]
  · simp [JWTService.verify_password, JWTService.hash_password, bcryptCheckpw,
      bcryptHashpw]

/-- Claim C3, witness: concrete password and two concrete distinct salts. -/
theorem hash_password_salting_witness :
    JWTService.hash_password "MySecurePassword123!" 0 ≠
      JWTService.hash_password "MySecurePassword123!" 1 ∧
    JWTService.verify_password "MySecurePassword123!"
      (JWTService.hash_password "MySecurePassword123!" 0) = true ∧
    JWTService.verify_password "MySecurePassword123!"
      (JWTService.hash_password "MySecurePassword123!" 1) = true :=
  hash_password_salting "MySecurePassword123!" 0 1 (by decide)

/-! ## Claims C6, C8 -/

/-- Claim C6: `update_user_profile` with an update map that is empty, or whose
every entry has a key outside the allow-list {first_name, last_name} or a
`None` value, returns a failure outcome and leaves the whole service state
(in particular every stored user record) unchanged. -/
theorem update_profile_no_valid_fields_noop (st : AuthState) (user_id : Nat)
    (updates : List (String × Option FieldVal))
    (h : ∀ kv ∈ updates,
      (kv.1 ≠ "first_name" ∧ kv.1 ≠ "last_name") ∨ kv.2 = none) :
    AuthenticationService.update_user_profile st user_id updates =
      ({ success := false, message := "No valid fields to update" }, st) := by
  have hf : updates.filter (fun kv => authAllowedField kv.1 && kv.2.isSome) = [] := by
    rw [List.filter_eq_nil_iff]
    intro kv hkv
    rcases h kv hkv with ⟨h1, h2⟩ | h2
    · simp [authAllowedField, h1, h2]
    · simp [h2]
  simp [AuthenticationService.update_user_profile, hf]

/-- Claim C6, witness: a disallowed key with a value, an allowed key with a
`None` value, over a one-user store. -/
theorem update_profile_no_valid_fields_noop_witness :
    AuthenticationService.update_user_profile
      { jwt := { secret_key := "k", algorithm := "HS256",
                 access_token_expire_hours := 1, revoked_tokens := [] },
        repo := { rows := [{ id := 1, email := "a@example.com",
                             password_hash := bcryptHashpw "Password123!" 0 12,
                             first_name := "Ann", last_name := "Lee",
                             created_at := 0 }],
                  next_id := 2 } }
      1 [("email", some (.str "b@example.com")), ("first_name", none)] =
      ({ success := false, message := "No valid fields to update" },
       { jwt := { secret_key := "k", algorithm := "HS256",
                  access_token_expire_hours := 1, revoked_tokens := [] },
         repo := { rows := [{ id := 1, email := "a@example.com",
                              password_hash := bcryptHashpw "Password123!" 0 12,
                              first_name := "Ann", last_name := "Lee",
                              created_at := 0 }],
                   next_id := 2 } }) := by
  apply update_profile_no_valid_fields_noop
  intro kv hkv
  fin_cases hkv
  · exact Or.inl (by decide)
  · exact Or.inr rfl

/-- Claim C8, counterexample: the source computes the expiry from one
`datetime.utcnow()` call and `iat` from a second, later call; when the clock
advances by one second between the two reads (reads 0 and 1), the issued
token has exp = 3600 and iat = 1, so exp differs from iat plus the default
duration (1 hour), refuting the claimed equality for every issued token. -/
theorem create_token_exp_iat_counterexample :
    JWTService.create_token
        { secret_key := "k", algorithm := "HS256",
          access_token_expire_hours := 1, revoked_tokens := [] }
        1 "user@example.com" "customer" none 0 1 =
      TokenValue.signed
        { user_id := 1, email := "user@example.com", role := "customer",
          exp := 3600, iat := 1, typ := "access" } "k" ∧
    (3600 : Int) ≠ 1 + 1 * 3600 := by
  exact ⟨rfl, by decide⟩

/-- Claim C8, amended: whenever the clock does not advance between
`create_token`'s two `datetime.utcnow()` reads, the expiry claim equals the
issued-at claim plus the configured default duration, or plus the
caller-supplied ttl when a nonzero one is given (Python truthiness makes a
zero timedelta fall back to the default). -/
theorem create_token_exp_iat_amended (st : JWTServiceState) (user_id : Nat)
    (email role : String) (expires_delta : Option Int) (t : Int)
    (h0 : ∀ d, expires_delta = some d → d ≠ 0) :
    ∃ c : JwtClaims,
      JWTService.create_token st user_id email role expires_delta t t =
        TokenValue.signed c st.secret_key ∧
      c.iat = t ∧
      c.exp = c.iat + expires_delta.getD (st.access_token_expire_hours * 3600) := by
  cases expires_delta with
  | none =>
    exact ⟨{ user_id := user_id, email := email, role := role,
             exp := t + st.access_token_expire_hours * 3600, iat := t,
             typ := "access" }, rfl, rfl, rfl⟩
  | some d =>
    have hd : d ≠ 0 := h0 d rfl
    refine ⟨{ user_id := user_id, email := email, role := role,
              exp := t + d, iat := t, typ := "access" }, ?_, rfl, by simp⟩
    simp [JWTService.create_token, hd]

/-- Claim C8 (amended), witness: default duration, both clock reads at 5. -/
theorem create_token_exp_iat_amended_witness :
    ∃ c : JwtClaims,
      JWTService.create_token
          { secret_key := "k", algorithm := "HS256",
            access_token_expire_hours := 1, revoked_tokens := [] }
          1 "user@example.com" "customer" none 5 5 =
        TokenValue.signed c "k" ∧
      c.iat = 5 ∧
      c.exp = c.iat + 1 * 3600 := by
  exact create_token_exp_iat_amended
    { secret_key := "k", algorithm := "HS256",
      access_token_expire_hours := 1, revoked_tokens := [] }
    1 "user@example.com" "customer" none 5 (by intro d h; cases h)

/-! ## Claim C7 -/

/-- Claim C7: after a successful registration of `e1`, a second registration
whose email is case-insensitively equal (equal after the trim+lowercase
normalization both calls apply) fails with the "already exists" outcome and
performs no insert (the state, in particular the stored rows, is unchanged);
the original user remains retrievable by email with all stored fields as
registered; and every `create_user` call preserves uniqueness of stored
emails (last conjunct, over an arbitrary repository state `rst`). -/
theorem duplicate_email_register_rejected (st : AuthState)
    (e1 p1 f1 l1 : String) (salt1 : Nat) (t1 : Int)
    (e2 p2 f2 l2 : String) (salt2 : Nat) (t2 : Int)
    (rst : RepoState) (e : String) (ph : BcryptHash) (f l : String)
    (u1 u2 : Int)
    (he1 : (pyStrip e1).isEmpty = false)
    (hp1 : ¬ p1.length < 8)
    (hf1 : (pyStrip f1).isEmpty = false)
    (hl1 : (pyStrip l1).isEmpty = false)
    (hv1 : ((pyStrip (pyLower (pyStrip e1))).isEmpty || (pyStrip (pyStrip f1)).isEmpty
            || (pyStrip (pyStrip l1)).isEmpty) = false)
    (hfresh : ∀ r ∈ st.repo.rows, r.email ≠ pyLower (pyStrip e1))
    (he2 : (pyStrip e2).isEmpty = false)
    (hp2 : ¬ p2.length < 8)
    (hf2 : (pyStrip f2).isEmpty = false)
    (hl2 : (pyStrip l2).isEmpty = false)
    (heq : pyLower (pyStrip e2) = pyLower (pyStrip e1))
    (hU : rst.rows.Pairwise (fun a b => a.email ≠ b.email)) :
    (AuthenticationService.register_user
        (AuthenticationService.register_user st e1 p1 f1 l1 salt1 t1 t1).2
        e2 p2 f2 l2 salt2 t2 t2).1 =
      { success := false, message := "User with this email already exists" } ∧
    (AuthenticationService.register_user
        (AuthenticationService.register_user st e1 p1 f1 l1 salt1 t1 t1).2
        e2 p2 f2 l2 salt2 t2 t2).2 =
      (AuthenticationService.register_user st e1 p1 f1 l1 salt1 t1 t1).2 ∧
    UserRepository.get_user_by_email
        (AuthenticationService.register_user st e1 p1 f1 l1 salt1 t1 t1).2.repo
        (pyLower (pyStrip e1)) =
      some { id := st.repo.next_id, email := pyLower (pyStrip e1),
             password_hash := JWTService.hash_password p1 salt1,
             first_name := (pyStrip f1), last_name := (pyStrip l1), created_at := t1 } ∧
    ((UserRepository.create_user rst e ph f l u1 u2).2).rows.Pairwise
      (fun a b => a.email ≠ b.email) := by
  have hany1 : (st.repo.rows.any fun r => r.email == pyLower (pyStrip e1)) = false :=
    any_email_eq_false _ _ hfresh
  have hcr1 : UserRepository.create_user st.repo (pyLower (pyStrip e1))
      (JWTService.hash_password p1 salt1) (pyStrip f1) (pyStrip l1) t1 t1 =
      (.ok { id := st.repo.next_id, email := pyLower (pyStrip e1),
             password_hash := JWTService.hash_password p1 salt1,
             first_name := (pyStrip f1), last_name := (pyStrip l1), created_at := t1 },
       { rows := st.repo.rows ++
           [{ id := st.repo.next_id, email := pyLower (pyStrip e1),
              password_hash := JWTService.hash_password p1 salt1,
              first_name := (pyStrip f1), last_name := (pyStrip l1), created_at := t1 }],
         next_id := st.repo.next_id + 1 }) := by
    simp [UserRepository.create_user, hany1, hv1]
  have hreg1 : AuthenticationService.register_user st e1 p1 f1 l1 salt1 t1 t1 =
      ({ success := true, message := "User registered successfully",
         user := some { id := st.repo.next_id, email := pyLower (pyStrip e1),
                        first_name := (pyStrip f1), last_name := (pyStrip l1),
                        full_name := (pyStrip f1) ++ " " ++ (pyStrip l1) } },
       { jwt := st.jwt,
         repo := { rows := st.repo.rows ++
                     [{ id := st.repo.next_id, email := pyLower (pyStrip e1),
                        password_hash := JWTService.hash_password p1 salt1,
                        first_name := (pyStrip f1), last_name := (pyStrip l1),
                        created_at := t1 }],
                   next_id := st.repo.next_id + 1 } }) := by
    simp [AuthenticationService.register_user, he1, hp1, hf1, hl1, hcr1,
      UserRow.info, UserRow.full_name]
  have hany2 : ((st.repo.rows ++
      [({ id := st.repo.next_id, email := pyLower (pyStrip e1),
          password_hash := JWTService.hash_password p1 salt1,
          first_name := (pyStrip f1), last_name := (pyStrip l1),
          created_at := t1 } : UserRow)]).any
        fun r => r.email == pyLower (pyStrip e2)) = true := by
    rw [heq, List.any_eq_true]
    refine ⟨{ id := st.repo.next_id, email := pyLower (pyStrip e1),
              password_hash := JWTService.hash_password p1 salt1,
              first_name := (pyStrip f1), last_name := (pyStrip l1),
              created_at := t1 }, by simp, by simp⟩
  have hreg2 : AuthenticationService.register_user
      (AuthenticationService.register_user st e1 p1 f1 l1 salt1 t1 t1).2
      e2 p2 f2 l2 salt2 t2 t2 =
      ({ success := false, message := "User with this email already exists" },
       (AuthenticationService.register_user st e1 p1 f1 l1 salt1 t1 t1).2) := by
    rw [hreg1]
    simp [AuthenticationService.register_user, he2, hp2, hf2, hl2,
      UserRepository.create_user, hany2]
  refine ⟨by rw [hreg2], by rw [hreg2], ?_, ?_⟩
  · rw [hreg1]
    unfold UserRepository.get_user_by_email
    exact find?_append_last _ _ _ (fun r hr => by simp [hfresh r hr]) (by simp)
  · unfold UserRepository.create_user
    by_cases hdup : (rst.rows.any fun r => r.email == e) = true
    · simpa [hdup] using hU
    · have hne : ∀ r ∈ rst.rows, r.email ≠ e := by
        intro r hr hcontra
        apply hdup
        rw [List.any_eq_true]
        exact ⟨r, hr, by simp [hcontra]⟩
      have happ : (rst.rows ++
          [({ id := rst.next_id, email := e, password_hash := ph,
              first_name := f, last_name := l, created_at := u1 } : UserRow)]).Pairwise
          (fun a b => a.email ≠ b.email) := by
        rw [List.pairwise_append]
        refine ⟨hU, by simp, ?_⟩
        intro a ha b hb
        simp only [List.mem_singleton] at hb
        subst hb
        exact hne a ha
      simp only [Bool.not_eq_true] at hdup
      simp only [hdup, Bool.false_eq_true, if_false]
      split <;> simpa using happ

/-- Claim C7, witness: register "Ann@Example.com", then register
"ANN@EXAMPLE.COM" — the second call fails with the "already exists"
outcome. -/
theorem duplicate_email_register_rejected_witness :
    (AuthenticationService.register_user
        (AuthenticationService.register_user
          { jwt := { secret_key := "k", algorithm := "HS256",
                     access_token_expire_hours := 1, revoked_tokens := [] },
            repo := { rows := [], next_id := 1 } }
          "Ann@Example.com" "Password123!" "Ann" "Lee" 0 0 0).2
        "ANN@EXAMPLE.COM" "Password123!" "Ann" "Lee" 1 1 1).1 =
      { success := false, message := "User with this email already exists" } := by
  exact (duplicate_email_register_rejected
    { jwt := { secret_key := "k", algorithm := "HS256",
               access_token_expire_hours := 1, revoked_tokens := [] },
      repo := { rows := [], next_id := 1 } }
    "Ann@Example.com" "Password123!" "Ann" "Lee" 0 0
    "ANN@EXAMPLE.COM" "Password123!" "Ann" "Lee" 1 1
    { rows := [], next_id := 1 } "x@y.z" (bcryptHashpw "pw" 0 12) "X" "Y" 0 0
    (by decide) (by decide) (by decide) (by decide) (by decide)
    (by simp) (by decide) (by decide) (by decide) (by decide)
    (by decide) (by simp)).1

/-! ## Claim C4 -/

/-- Claim C4: for every valid input tuple (non-blank email and names,
password of at least 8 characters) whose normalized email is not already
registered, `register_user` followed by `login_user` with the same
credentials succeeds and returns a token, and `verify_token` on that token
succeeds with a subject user id equal to the id assigned at registration.
Assumed: the repository id invariant `hid` (no stored row already uses the
AUTOINCREMENT counter), a revocation-free JWT service with a positive
configured expiry, and all clock reads at `now` (so the token is not yet
expired when verified). `hv` restates that the normalized fields stay
non-blank — always true, since stripping is idempotent and lowercasing
preserves whitespace. -/
theorem register_login_verify_roundtrip (st : AuthState)
    (email password first_name last_name : String) (salt : Nat) (now : Int)
    (he : (pyStrip email).isEmpty = false)
    (hp : ¬ password.length < 8)
    (hf : (pyStrip first_name).isEmpty = false)
    (hl : (pyStrip last_name).isEmpty = false)
    (hv : ((pyStrip (pyLower (pyStrip email))).isEmpty
        || (pyStrip (pyStrip first_name)).isEmpty
        || (pyStrip (pyStrip last_name)).isEmpty) = false)
    (hpw : password.isEmpty = false)
    (hfresh : ∀ r ∈ st.repo.rows, r.email ≠ pyLower (pyStrip email))
    (hid : ∀ r ∈ st.repo.rows, r.id ≠ st.repo.next_id)
    (hrev : st.jwt.revoked_tokens = [])
    (hexp : 0 < st.jwt.access_token_expire_hours) :
    (AuthenticationService.register_user st email password first_name last_name
        salt now now).1.success = true ∧
    (AuthenticationService.login_user
        (AuthenticationService.register_user st email password first_name
          last_name salt now now).2 email password now now).1.success = true ∧
    ∃ tok,
      (AuthenticationService.login_user
          (AuthenticationService.register_user st email password first_name
            last_name salt now now).2 email password now now).1.token =
        some tok ∧
      (AuthenticationService.verify_token
          (AuthenticationService.login_user
            (AuthenticationService.register_user st email password first_name
              last_name salt now now).2 email password now now).2
          tok now).1.success = true ∧
      ((AuthenticationService.verify_token
          (AuthenticationService.login_user
            (AuthenticationService.register_user st email password first_name
              last_name salt now now).2 email password now now).2
          tok now).1.token_payload.map fun c => c.user_id) =
        ((AuthenticationService.register_user st email password first_name
            last_name salt now now).1.user.map fun u => u.id) := by
  have hany : (st.repo.rows.any fun r => r.email == pyLower (pyStrip email)) = false :=
    any_email_eq_false _ _ hfresh
  have hcr : UserRepository.create_user st.repo (pyLower (pyStrip email))
      (JWTService.hash_password password salt) (pyStrip first_name)
      (pyStrip last_name) now now =
      (.ok { id := st.repo.next_id, email := pyLower (pyStrip email),
             password_hash := JWTService.hash_password password salt,
             first_name := pyStrip first_name, last_name := pyStrip last_name,
             created_at := now },
       { rows := st.repo.rows ++
           [{ id := st.repo.next_id, email := pyLower (pyStrip email),
              password_hash := JWTService.hash_password password salt,
              first_name := pyStrip first_name, last_name := pyStrip last_name,
              created_at := now }],
         next_id := st.repo.next_id + 1 }) := by
    simp [UserRepository.create_user, hany, hv]
  have hreg : AuthenticationService.register_user st email password first_name
      last_name salt now now =
      ({ success := true, message := "User registered successfully",
         user := some { id := st.repo.next_id, email := pyLower (pyStrip email),
                        first_name := pyStrip first_name,
                        last_name := pyStrip last_name,
                        full_name := pyStrip first_name ++ " " ++ pyStrip last_name } },
       { jwt := st.jwt,
         repo := { rows := st.repo.rows ++
                     [{ id := st.repo.next_id, email := pyLower (pyStrip email),
                        password_hash := JWTService.hash_password password salt,
                        first_name := pyStrip first_name,
                        last_name := pyStrip last_name, created_at := now }],
                   next_id := st.repo.next_id + 1 } }) := by
    simp [AuthenticationService.register_user, he, hp, hf, hl, hcr,
      UserRow.info, UserRow.full_name]
  have hfind : UserRepository.get_user_by_email
      { rows := st.repo.rows ++
          [{ id := st.repo.next_id, email := pyLower (pyStrip email),
             password_hash := JWTService.hash_password password salt,
             first_name := pyStrip first_name, last_name := pyStrip last_name,
             created_at := now }],
        next_id := st.repo.next_id + 1 } (pyLower (pyStrip email)) =
      some { id := st.repo.next_id, email := pyLower (pyStrip email),
             password_hash := JWTService.hash_password password salt,
             first_name := pyStrip first_name, last_name := pyStrip last_name,
             created_at := now } := by
    unfold UserRepository.get_user_by_email
    exact find?_append_last _ _ _ (fun r hr => by simp [hfresh r hr]) (by simp)
  have hpwv : JWTService.verify_password password
      (JWTService.hash_password password salt) = true := by
    simp [JWTService.verify_password, JWTService.hash_password, bcryptCheckpw,
      bcryptHashpw]
  have hlogin : AuthenticationService.login_user
      { jwt := st.jwt,
        repo := { rows := st.repo.rows ++
                    [{ id := st.repo.next_id, email := pyLower (pyStrip email),
                       password_hash := JWTService.hash_password password salt,
                       first_name := pyStrip first_name,
                       last_name := pyStrip last_name, created_at := now }],
                  next_id := st.repo.next_id + 1 } } email password now now =
      ({ success := true, message := "Login successful",
         token := some (TokenValue.signed
           { user_id := st.repo.next_id, email := pyLower (pyStrip email),
             role := "customer",
             exp := now + st.jwt.access_token_expire_hours * 3600, iat := now,
             typ := "access" } st.jwt.secret_key),
         user := some { id := st.repo.next_id, email := pyLower (pyStrip email),
                        first_name := pyStrip first_name,
                        last_name := pyStrip last_name,
                        full_name := pyStrip first_name ++ " " ++ pyStrip last_name } },
       { jwt := st.jwt,
         repo := { rows := st.repo.rows ++
                     [{ id := st.repo.next_id, email := pyLower (pyStrip email),
                        password_hash := JWTService.hash_password password salt,
                        first_name := pyStrip first_name,
                        last_name := pyStrip last_name, created_at := now }],
                   next_id := st.repo.next_id + 1 } }) := by
    simp [AuthenticationService.login_user, he, hpw, hfind, hpwv,
      JWTService.create_token, UserRow.info, UserRow.full_name]
  have hnexp : ¬ (now + st.jwt.access_token_expire_hours * 3600 ≤ now) := by
    have h3600 : 0 < st.jwt.access_token_expire_hours * 3600 :=
      mul_pos hexp (by norm_num)
    linarith
  have hjwtv : JWTService.verify_token st.jwt
      (TokenValue.signed
        { user_id := st.repo.next_id, email := pyLower (pyStrip email),
          role := "customer",
          exp := now + st.jwt.access_token_expire_hours * 3600, iat := now,
          typ := "access" } st.jwt.secret_key) now =
      .ok { user_id := st.repo.next_id, email := pyLower (pyStrip email),
            role := "customer",
            exp := now + st.jwt.access_token_expire_hours * 3600, iat := now,
            typ := "access" } := by
    simp [JWTService.verify_token, hrev, jwtDecode, hnexp]
  have hbyid : UserRepository.get_user_by_id
      { rows := st.repo.rows ++
          [{ id := st.repo.next_id, email := pyLower (pyStrip email),
             password_hash := JWTService.hash_password password salt,
             first_name := pyStrip first_name, last_name := pyStrip last_name,
             created_at := now }],
        next_id := st.repo.next_id + 1 } st.repo.next_id =
      some { id := st.repo.next_id, email := pyLower (pyStrip email),
             password_hash := JWTService.hash_password password salt,
             first_name := pyStrip first_name, last_name := pyStrip last_name,
             created_at := now } := by
    unfold UserRepository.get_user_by_id
    exact find?_append_last _ _ _ (fun r hr => by simp [hid r hr]) (by simp)
  have hver : AuthenticationService.verify_token
      { jwt := st.jwt,
        repo := { rows := st.repo.rows ++
                    [{ id := st.repo.next_id, email := pyLower (pyStrip email),
                       password_hash := JWTService.hash_password password salt,
                       first_name := pyStrip first_name,
                       last_name := pyStrip last_name, created_at := now }],
                  next_id := st.repo.next_id + 1 } }
      (TokenValue.signed
        { user_id := st.repo.next_id, email := pyLower (pyStrip email),
          role := "customer",
          exp := now + st.jwt.access_token_expire_hours * 3600, iat := now,
          typ := "access" } st.jwt.secret_key) now =
      ({ success := true, message := "Token is valid",
         user := some { id := st.repo.next_id, email := pyLower (pyStrip email),
                        first_name := pyStrip first_name,
                        last_name := pyStrip last_name,
                        full_name := pyStrip first_name ++ " " ++ pyStrip last_name },
         token_payload := some
           { user_id := st.repo.next_id, email := pyLower (pyStrip email),
             role := "customer",
             exp := now + st.jwt.access_token_expire_hours * 3600, iat := now,
             typ := "access" } },
       { jwt := st.jwt,
         repo := { rows := st.repo.rows ++
                     [{ id := st.repo.next_id, email := pyLower (pyStrip email),
                        password_hash := JWTService.hash_password password salt,
                        first_name := pyStrip first_name,
                        last_name := pyStrip last_name, created_at := now }],
                   next_id := st.repo.next_id + 1 } }) := by
    simp [AuthenticationService.verify_token, hjwtv, hbyid, UserRow.info,
      UserRow.full_name]
  refine ⟨by rw [hreg], by rw [hreg, hlogin], ?_⟩
  refine ⟨TokenValue.signed
    { user_id := st.repo.next_id, email := pyLower (pyStrip email),
      role := "customer",
      exp := now + st.jwt.access_token_expire_hours * 3600, iat := now,
      typ := "access" } st.jwt.secret_key, by rw [hreg, hlogin], ?_, ?_⟩
  · rw [hreg, hlogin, hver]
  · rw [hreg, hlogin, hver]
    simp

/-- Claim C4, witness: fresh service, registration and login of a concrete
user at time 0. -/
theorem register_login_verify_roundtrip_witness :
    (AuthenticationService.register_user
        { jwt := { secret_key := "k", algorithm := "HS256",
                   access_token_expire_hours := 1, revoked_tokens := [] },
          repo := { rows := [], next_id := 1 } }
        "a@example.com" "Password123!" "Ann" "Lee" 0 0 0).1.success = true ∧
    (AuthenticationService.login_user
        (AuthenticationService.register_user
          { jwt := { secret_key := "k", algorithm := "HS256",
                     access_token_expire_hours := 1, revoked_tokens := [] },
            repo := { rows := [], next_id := 1 } }
          "a@example.com" "Password123!" "Ann" "Lee" 0 0 0).2
        "a@example.com" "Password123!" 0 0).1.success = true := by
  have h := register_login_verify_roundtrip
    { jwt := { secret_key := "k", algorithm := "HS256",
               access_token_expire_hours := 1, revoked_tokens := [] },
      repo := { rows := [], next_id := 1 } }
    "a@example.com" "Password123!" "Ann" "Lee" 0 0
    (by decide) (by decide) (by decide) (by decide) (by decide) (by decide)
    (by simp) (by simp) rfl (by decide)
  exact ⟨h.1, h.2.1⟩

/-! ## `src/auth` stack -/

/-- The regex class [a-zA-Z0-9._%+-] of the email local part
(`src/auth/domain/value_objects.py` line 29). `Char.isAlpha` and
`Char.isDigit` are exactly the ASCII ranges of the pattern. -/
def isLocalChar (c : Char) : Bool :=
  c.isAlpha || c.isDigit || c == '.' || c == '_' || c == '%' || c == '+' || c == '-'

/-- The regex class [a-zA-Z0-9.-] of the email domain part. -/
def isDomainChar (c : Char) : Bool :=
  c.isAlpha || c.isDigit || c == '.' || c == '-'

/-- Matcher for the regex tail [a-zA-Z0-9.-]+\.[a-zA-Z]{2,}$ against the
characters after the "@". The final label is alpha-only, hence contains no
dot, so any successful match splits at the last dot of the remainder. -/
def domainTailOk (t : List Char) : Bool :=
  let rev := t.reverse
  let lab := rev.takeWhile Char.isAlpha
  match rev.dropWhile Char.isAlpha with
  | '.' :: brev => decide (2 ≤ lab.length) && !brev.isEmpty && brev.all isDomainChar
  | _ => false

/-- Model of
`re.match(r'^[a-zA-Z0-9._%+-]+@[a-zA-Z0-9.-]+\.[a-zA-Z]{2,}$', s)` being
non-`None`. Neither character class contains "@", so a match consumes the
local part exactly up to the first "@"; Python's `$` also matches just
before one trailing newline. -/
def emailRegexOk (s : String) : Bool :=
  let cs0 := s.data
  let cs := if cs0.getLast? == some '\n' then cs0.dropLast else cs0
  let localPart := cs.takeWhile (fun c => c != '@')
  match cs.dropWhile (fun c => c != '@') with
  | '@' :: domain =>
    (!localPart.isEmpty) && localPart.all isLocalChar && domainTailOk domain
  | _ => false

/-- `Email.__post_init__` (`src/auth/domain/value_objects.py` lines 19-34):
empty check, then the format regex, then the length bound; the raised
`ValueError` is returned as its message. -/
def Email.validate (s : String) : Except String String :=
  if s.isEmpty then .error "Email cannot be empty"
  else if !(emailRegexOk s) then .error "Invalid email format"
  else if 254 < s.length then .error "Email is too long"
  else .ok s

/-- `User` (`src/auth/domain/entities.py` lines 9-20): the `UserId` and
`Email` value objects are represented by their validated string values. -/
structure SrcUser where
  id : String
  email : String
  hashed_password : BcryptHash
  first_name : Option String
  last_name : Option String
  is_active : Bool
  is_verified : Bool
deriving DecidableEq, Repr

/-- `User.full_name` (`src/auth/domain/entities.py` lines 22-31). -/
def SrcUser.full_name (u : SrcUser) : String :=
  match u.first_name, u.last_name with
  | some f, some l => f ++ " " ++ l
  | some f, none => f
  | none, some l => l
  | none, none => u.email

/-- The `users` table of `SQLiteUserRepository`
(`src/auth/infrastructure/user_repository.py`), rows in insertion order. -/
structure SrcRepoState where
  users : List SrcUser
deriving DecidableEq, Repr

/-- `SQLiteUserRepository.get_user_by_email`
(`src/auth/infrastructure/user_repository.py` lines 88-99): exact match on
the stored email. -/
def SQLiteUserRepository.get_user_by_email (st : SrcRepoState)
    (email : String) : Option SrcUser :=
  st.users.find? (fun u => u.email == email)

/-- The `Settings` fields consumed by the `src/auth` `JWTService`
(`src/auth/infrastructure/jwt_service.py` lines 12-16). -/
structure SrcSettings where
  jwt_secret_key : String
  jwt_algorithm : String
  jwt_access_token_expire_minutes : Int
  jwt_refresh_token_expire_days : Int
deriving DecidableEq, Repr

/-- The payload of the `src/auth` tokens: the data dict {sub, email} plus the
"exp" and "type" claims added by the create functions. -/
structure SrcClaims where
  sub : String
  email : String
  exp : Int
  typ : String
deriving DecidableEq, Repr

/-- An encoded `src/auth` token (same JWT encoding model as `TokenValue`). -/
inductive SrcToken where
  | signed (claims : SrcClaims) (key : String)
  | malformed (s : String)
deriving DecidableEq, Repr

/-- `JWTService.create_access_token`
(`src/auth/infrastructure/jwt_service.py` lines 18-25); `t` is the
`datetime.utcnow()` read of this call. -/
def SrcJWTService.create_access_token (s : SrcSettings) (sub email : String)
    (t : Int) : SrcToken :=
  SrcToken.signed
    { sub := sub, email := email,
      exp := t + s.jwt_access_token_expire_minutes * 60, typ := "access" }
    s.jwt_secret_key

/-- `JWTService.create_refresh_token`
(`src/auth/infrastructure/jwt_service.py` lines 27-34). -/
def SrcJWTService.create_refresh_token (s : SrcSettings) (sub email : String)
    (t : Int) : SrcToken :=
  SrcToken.signed
    { sub := sub, email := email,
      exp := t + s.jwt_refresh_token_expire_days * 86400, typ := "refresh" }
    s.jwt_secret_key

/-- `JWTService.create_token_pair`
(`src/auth/infrastructure/jwt_service.py` lines 60-68), one clock read per
token creation. -/
def SrcJWTService.create_token_pair (s : SrcSettings) (sub email : String)
    (t1 t2 : Int) : SrcToken × SrcToken × String :=
  (SrcJWTService.create_access_token s sub email t1,
   SrcJWTService.create_refresh_token s sub email t2, "bearer")

/-- Model of `jwt.decode` for the `src/auth` tokens (the same PyJWT
semantics as `jwtDecode`: structure and signature first, then the `exp`
claim). -/
def srcJwtDecode (t : SrcToken) (key : String) (now : Int) :
    Except JwtDecodeError SrcClaims :=
  match t with
  | .malformed _ => .error .invalidToken
  | .signed c k =>
    if k = key then
      if c.exp ≤ now then .error .expiredSignature else .ok c
    else .error .invalidToken

/-- `JWTService.verify_token` (`src/auth/infrastructure/jwt_service.py`
lines 36-44): `jwt.ExpiredSignatureError` and `jwt.InvalidTokenError` are
caught by separate clauses that both return the same `None`, collapsing the
expiry failure and the signature/malformed failures into one
indistinguishable outcome. -/
def SrcJWTService.verify_token (s : SrcSettings) (t : SrcToken) (now : Int) :
    Option SrcClaims :=
  match srcJwtDecode t s.jwt_secret_key now with
  | .ok payload => some payload
  | .error .expiredSignature => none
  | .error .invalidToken => none

/-- The dictionary returned by `LoginUserUseCase.execute` on success
(`src/auth/application/use_cases.py` lines 80-93). -/
structure SrcLoginResponse where
  access_token : SrcToken
  refresh_token : SrcToken
  token_type : String
  user_id : String
  user_email : String
  first_name : Option String
  last_name : Option String
  full_name : String
  is_active : Bool
  is_verified : Bool
deriving DecidableEq, Repr

/-- `LoginUserUseCase.execute` (`src/auth/application/use_cases.py`
lines 61-93). The injected password service's `verify_password` is the
parameter `vf`: the module `src.auth.infrastructure.password_service`
imported there is absent from the repository, while the bcrypt
implementation present in `services.py` (`BCryptPasswordService`) is
`bcryptCheckpw`. Step order from the source: `Email(email)` construction
(a validation `ValueError` propagates as its message), lookup ("Invalid
credentials" when absent), the `is_active` check ("Account is
deactivated"), password verification ("Invalid credentials"), then
token-pair creation. -/
def LoginUserUseCase.execute (vf : String → BcryptHash → Bool)
    (settings : SrcSettings) (st : SrcRepoState) (email password : String)
    (t1 t2 : Int) : Except String SrcLoginResponse :=
  match Email.validate email with
  | .error m => .error m
  | .ok e =>
    match SQLiteUserRepository.get_user_by_email st e with
    | none => .error "Invalid credentials"
    | some user =>
      if !user.is_active then .error "Account is deactivated"
      else if !(vf password user.hashed_password) then .error "Invalid credentials"
      else
        let pair := SrcJWTService.create_token_pair settings user.id user.email t1 t2
        .ok { access_token := pair.1, refresh_token := pair.2.1,
              token_type := pair.2.2, user_id := user.id,
              user_email := user.email, first_name := user.first_name,
              last_name := user.last_name, full_name := user.full_name,
              is_active := user.is_active, is_verified := user.is_verified }

/-- `PyJWTService.verify_refresh_token`
(`src/auth/infrastructure/services.py` lines 99-124): the only check is that
the refresh token string has length at least 32; on success the hardcoded
placeholder user id 1 is returned; the in-try raise for short strings is
re-wrapped by the final `except` clause. -/
def PyJWTService.verify_refresh_token (refresh_token : String) :
    Except String Nat :=
  if refresh_token.length < 32 then
    .error "Refresh token verification failed: Invalid refresh token format"
  else .ok 1

/-! ## Claims C9, C10, C5 -/

/-- Claim C9: `verify_refresh_token` is a stub returning the placeholder
subject: every refresh token string of length at least 32 yields the same
fixed user id 1, independent of which user the token was issued for, and
every shorter string fails. -/
theorem verify_refresh_token_stub (s : String) :
    (32 ≤ s.length → PyJWTService.verify_refresh_token s = .ok 1) ∧
    (s.length < 32 →
      PyJWTService.verify_refresh_token s =
        .error "Refresh token verification failed: Invalid refresh token format") := by
  constructor
  · intro h
    simp [PyJWTService.verify_refresh_token, Nat.not_lt.mpr h]
  · intro h
    simp [PyJWTService.verify_refresh_token, h]

/-- Claim C9, witness: one 32-character token (accepted with the placeholder
id 1) and one short token (rejected). -/
theorem verify_refresh_token_stub_witness :
    PyJWTService.verify_refresh_token
      "abcdefghijklmnopqrstuvwxyz012345" = .ok 1 ∧
    PyJWTService.verify_refresh_token "tooShort" =
      .error "Refresh token verification failed: Invalid refresh token format" :=
  ⟨(verify_refresh_token_stub "abcdefghijklmnopqrstuvwxyz012345").1 (by decide),
   (verify_refresh_token_stub "tooShort").2 (by decide)⟩

/-- Claim C2, counterexample: in the claim's cited
`src/auth/infrastructure/jwt_service.py` `JWTService.verify_token`
(lines 36-44), an already-expired token (issued under a negative expiry
setting of -1 minute, i.e. a negative ttl), a token signed with a different
key, and a malformed token all produce the identical `none` outcome, so
there the expiry failure is not distinguishable by the caller from a
signature mismatch or a malformed token, refuting the claim for that cited
implementation. -/
theorem expiry_error_not_distinct_counterexample :
    SrcJWTService.verify_token
      { jwt_secret_key := "k", jwt_algorithm := "HS256",
        jwt_access_token_expire_minutes := -1,
        jwt_refresh_token_expire_days := 7 }
      (SrcJWTService.create_access_token
        { jwt_secret_key := "k", jwt_algorithm := "HS256",
          jwt_access_token_expire_minutes := -1,
          jwt_refresh_token_expire_days := 7 }
        "user_0001" "bob@example.com" 100) 100 = none ∧
    SrcJWTService.verify_token
      { jwt_secret_key := "k", jwt_algorithm := "HS256",
        jwt_access_token_expire_minutes := -1,
        jwt_refresh_token_expire_days := 7 }
      (SrcToken.signed
        { sub := "user_0001", email := "bob@example.com", exp := 4000,
          typ := "access" } "otherkey") 100 = none ∧
    SrcJWTService.verify_token
      { jwt_secret_key := "k", jwt_algorithm := "HS256",
        jwt_access_token_expire_minutes := -1,
        jwt_refresh_token_expire_days := 7 }
      (SrcToken.malformed "not.a.token") 100 = none :=
  ⟨rfl, rfl, rfl⟩

/-- Claim C10: for every stored user whose `is_active` flag is false, login
with that user's email fails with the distinct "Account is deactivated"
message, for every supplied password (in particular the correct one) and
every injected password verifier `vf` — the `is_active` check runs before
password verification, so the verifier is never consulted and no token is
issued — and that message differs from the generic invalid-credentials
message. -/
theorem deactivated_login_fails (vf : String → BcryptHash → Bool)
    (settings : SrcSettings) (st : SrcRepoState) (u : SrcUser)
    (email password : String) (t1 t2 : Int)
    (hfmt : Email.validate email = .ok email)
    (hfind : SQLiteUserRepository.get_user_by_email st email = some u)
    (hact : u.is_active = false) :
    LoginUserUseCase.execute vf settings st email password t1 t2 =
      .error "Account is deactivated" ∧
    "Account is deactivated" ≠ "Invalid credentials" := by
  constructor
  · simp [LoginUserUseCase.execute, hfmt, hfind, hact]
  · decide

/-- Claim C10, witness: a concrete deactivated user and that user's correct
password. -/
theorem deactivated_login_fails_witness :
    LoginUserUseCase.execute bcryptCheckpw
      { jwt_secret_key := "k", jwt_algorithm := "HS256",
        jwt_access_token_expire_minutes := 30,
        jwt_refresh_token_expire_days := 7 }
      { users := [{ id := "user_0001", email := "bob@example.com",
                    hashed_password := bcryptHashpw "Secret123" 5 12,
                    first_name := some "Bob", last_name := some "Roe",
                    is_active := false, is_verified := false }] }
      "bob@example.com" "Secret123" 0 0 =
      .error "Account is deactivated" :=
  (deactivated_login_fails bcryptCheckpw
    { jwt_secret_key := "k", jwt_algorithm := "HS256",
      jwt_access_token_expire_minutes := 30,
      jwt_refresh_token_expire_days := 7 }
    { users := [{ id := "user_0001", email := "bob@example.com",
                  hashed_password := bcryptHashpw "Secret123" 5 12,
                  first_name := some "Bob", last_name := some "Roe",
                  is_active := false, is_verified := false }] }
    { id := "user_0001", email := "bob@example.com",
      hashed_password := bcryptHashpw "Secret123" 5 12,
      first_name := some "Bob", last_name := some "Roe",
      is_active := false, is_verified := false }
    "bob@example.com" "Secret123" 0 0 rfl rfl rfl).1

/-- Claim C5, counterexample: in `LoginUserUseCase.execute` (cited by the
claim), a deactivated stored user refutes the universally quantified message
equality: with a supplied password different from the user's stored one (the
bcrypt verifier), login on the user's email yields "Account is deactivated"
while login on an email absent from the store yields "Invalid credentials" —
two different strings, so this failure does reveal that the account
exists. -/
theorem login_failure_message_counterexample :
    LoginUserUseCase.execute bcryptCheckpw
      { jwt_secret_key := "k", jwt_algorithm := "HS256",
        jwt_access_token_expire_minutes := 30,
        jwt_refresh_token_expire_days := 7 }
      { users := [{ id := "user_0001", email := "bob@example.com",
                    hashed_password := bcryptHashpw "Secret123" 5 12,
                    first_name := some "Bob", last_name := some "Roe",
                    is_active := false, is_verified := false }] }
      "bob@example.com" "WrongPass1" 0 0 =
      .error "Account is deactivated" ∧
    LoginUserUseCase.execute bcryptCheckpw
      { jwt_secret_key := "k", jwt_algorithm := "HS256",
        jwt_access_token_expire_minutes := 30,
        jwt_refresh_token_expire_days := 7 }
      { users := [{ id := "user_0001", email := "bob@example.com",
                    hashed_password := bcryptHashpw "Secret123" 5 12,
                    first_name := some "Bob", last_name := some "Roe",
                    is_active := false, is_verified := false }] }
      "ghost@example.com" "WrongPass1" 0 0 =
      .error "Invalid credentials" ∧
    ("Account is deactivated" : String) ≠ "Invalid credentials" :=
  ⟨rfl, rfl, by decide⟩

/-- Claim C5, amended: the account-enumeration-safe message equality holds
unconditionally for `AuthenticationService.login_user` — an absent email and
a wrong password produce the identical "Invalid email or password" string —
and for `LoginUserUseCase.execute` it holds provided the stored user is
active: absent email and wrong password on an active account both produce
"Invalid credentials". (The deactivated-user branch of `LoginUserUseCase`
is the only exception; see the counterexample.) -/
theorem login_failure_message_uniform (st : AuthState)
    (email password : String) (t1 t2 : Int)
    (vf : String → BcryptHash → Bool) (settings : SrcSettings)
    (sst : SrcRepoState) (e1 p1 : String) (t3 t4 : Int)
    (he : (pyStrip email).isEmpty = false)
    (hpw : password.isEmpty = false) :
    (UserRepository.get_user_by_email st.repo (pyLower (pyStrip email)) = none →
      AuthenticationService.login_user st email password t1 t2 =
        ({ success := false, message := "Invalid email or password" }, st)) ∧
    (∀ user : UserRow,
      UserRepository.get_user_by_email st.repo (pyLower (pyStrip email)) =
        some user →
      JWTService.verify_password password user.password_hash = false →
      AuthenticationService.login_user st email password t1 t2 =
        ({ success := false, message := "Invalid email or password" }, st)) ∧
    (Email.validate e1 = .ok e1 →
      SQLiteUserRepository.get_user_by_email sst e1 = none →
      LoginUserUseCase.execute vf settings sst e1 p1 t3 t4 =
        .error "Invalid credentials") ∧
    (∀ u : SrcUser,
      Email.validate e1 = .ok e1 →
      SQLiteUserRepository.get_user_by_email sst e1 = some u →
      u.is_active = true →
      vf p1 u.hashed_password = false →
      LoginUserUseCase.execute vf settings sst e1 p1 t3 t4 =
        .error "Invalid credentials") := by
  refine ⟨?_, ?_, ?_, ?_⟩
  · intro habs
    simp [AuthenticationService.login_user, he, hpw, habs]
  · intro user hfind hbad
    simp [AuthenticationService.login_user, he, hpw, hfind, hbad]
  · intro hfmt habs
    simp [LoginUserUseCase.execute, hfmt, habs]
  · intro u hfmt hfind hact hbad
    simp [LoginUserUseCase.execute, hfmt, hfind, hact, hbad]

/-- Claim C5 (amended), witness: a concrete absent email on the examples
stack, and a concrete active user with a wrong password on the `src/auth`
stack, both yielding the respective uniform message. -/
theorem login_failure_message_uniform_witness :
    AuthenticationService.login_user
      { jwt := { secret_key := "k", algorithm := "HS256",
                 access_token_expire_hours := 1, revoked_tokens := [] },
        repo := { rows := [{ id := 1, email := "ann@example.com",
                             password_hash := bcryptHashpw "Password123!" 0 12,
                             first_name := "Ann", last_name := "Lee",
                             created_at := 0 }],
                  next_id := 2 } }
      "ghost@example.com" "Password123!" 0 0 =
      ({ success := false, message := "Invalid email or password" },
       { jwt := { secret_key := "k", algorithm := "HS256",
                  access_token_expire_hours := 1, revoked_tokens := [] },
         repo := { rows := [{ id := 1, email := "ann@example.com",
                              password_hash := bcryptHashpw "Password123!" 0 12,
                              first_name := "Ann", last_name := "Lee",
                              created_at := 0 }],
                   next_id := 2 } }) ∧
    LoginUserUseCase.execute bcryptCheckpw
      { jwt_secret_key := "k", jwt_algorithm := "HS256",
        jwt_access_token_expire_minutes := 30,
        jwt_refresh_token_expire_days := 7 }
      { users := [{ id := "user_0002", email := "carol@example.com",
                    hashed_password := bcryptHashpw "Secret123" 5 12,
                    first_name := some "Carol", last_name := some "Day",
                    is_active := true, is_verified := true }] }
      "carol@example.com" "WrongPass1" 0 0 =
      .error "Invalid credentials" := by
  have h := login_failure_message_uniform
    { jwt := { secret_key := "k", algorithm := "HS256",
               access_token_expire_hours := 1, revoked_tokens := [] },
      repo := { rows := [{ id := 1, email := "ann@example.com",
                           password_hash := bcryptHashpw "Password123!" 0 12,
                           first_name := "Ann", last_name := "Lee",
                           created_at := 0 }],
                next_id := 2 } }
    "ghost@example.com" "Password123!" 0 0 bcryptCheckpw
    { jwt_secret_key := "k", jwt_algorithm := "HS256",
      jwt_access_token_expire_minutes := 30,
      jwt_refresh_token_expire_days := 7 }
    { users := [{ id := "user_0002", email := "carol@example.com",
                  hashed_password := bcryptHashpw "Secret123" 5 12,
                  first_name := some "Carol", last_name := some "Day",
                  is_active := true, is_verified := true }] }
    "carol@example.com" "WrongPass1" 0 0 (by decide) (by decide)
  exact ⟨h.1 (by decide), h.2.2.2
    { id := "user_0002", email := "carol@example.com",
      hashed_password := bcryptHashpw "Secret123" 5 12,
      first_name := some "Carol", last_name := some "Day",
      is_active := true, is_verified := true }
    rfl rfl rfl (by decide)⟩

end AuthVerif
